import Mathlib

/-! Shallow embedding of `portfolioopt/portfolioopt.py` (czielinski/portfolioopt).

Labeled containers are modelled over `ℚ`: a `pandas.DataFrame` carries its
row labels (the asset index) and its values, a `pandas.Series` carries its
labels and values.  The cvxopt quadratic-program solver is an external
collaborator and is modelled as an explicit function parameter mapping a
standard-form QP to a solver result.  Python `ValueError`s raised during
input validation are the specification's `InvalidInputError`; the
`ValueError` raised at the rescale site of `truncate_weights` is the
specification's `DegenerateResultError`.  Warnings issued through
`warnings.warn` are collected in a list returned alongside the weights. -/

namespace PortfolioOpt

/-- A `pandas.DataFrame`: row labels together with the rectangular array of
values (row by row). -/
structure DFrame where
  index : List String
  values : List (List ℚ)

/-- A `pandas.Series`: labels together with values. -/
structure PSeries where
  index : List String
  values : List ℚ

/-- Errors raised by the library.  The Python code raises `ValueError` in
both situations; the specification names the pre-solve validation failures
`InvalidInputError` and the rescale-on-degenerate-sum failure
`DegenerateResultError`. -/
inductive PfError where
  | invalidInput (msg : String)
  | degenerateResult (msg : String)
  deriving DecidableEq

/-- A dynamically typed Python value, to the extent the `isinstance` checks
of the source distinguish them.  `isinstance(x, float)` holds exactly for
the `pfloat` constructor (a Python `int` or `bool` is not a `float`). -/
inductive PyVal where
  | pfloat (x : ℚ)
  | pint (n : ℤ)
  | pbool (b : Bool)
  | pstr (s : String)
  deriving DecidableEq

/-- Python `isinstance(v, float)`. -/
def PyVal.isFloat : PyVal → Bool
  | .pfloat _ => true
  | _ => false

/-- A standard-form quadratic program `(P, q, G, h, A, b)` as handed to
`cvxopt.solvers.qp`.  The equality block `A`/`b` is absent (`none`) when the
solver is called without it, as in `tangency_portfolio`. -/
structure QP where
  P : List (List ℚ)
  q : List ℚ
  G : List (List ℚ)
  h : List ℚ
  A : Option (List (List ℚ))
  b : Option (List ℚ)

/-- Result of a `cvxopt.solvers.qp` call: the status string `sol['status']`
and the raw solution vector `sol['x']`. -/
structure SolverResult where
  status : String
  x : List ℚ

/-- The negated identity `-np.identity(n)`, row by row. -/
def negIdentity (n : ℕ) : List (List ℚ) :=
  (List.range n).map (fun i => (List.range n).map (fun j => if i = j then -1 else 0))

/-- Warning text of portfolioopt.py line 84. -/
def mnWarn : String := "A market neutral portfolio implies shorting"

/-- Warning text of portfolioopt.py lines 118, 176 and 239. -/
def convergenceWarn : String := "Convergence problem"

/-- The standard-form QP assembled by `markowitz_portfolio`
(portfolioopt.py lines 83-111), including the coercion to
`allow_short = True` performed when `market_neutral and not allow_short`
(lines 83-85).  `n = len(cov_mat)` is the number of rows of the frame. -/
def markowitz_qp (cov : DFrame) (rets : PSeries) (target : ℚ)
    (allow_short market_neutral : Bool) : QP :=
  let shortOk := if market_neutral && !allow_short then true else allow_short
  let n := cov.index.length
  { P := cov.values
    q := List.replicate n 0
    G := if !shortOk then (rets.values.map Neg.neg) :: negIdentity n
         else [rets.values.map Neg.neg]
    h := if !shortOk then (-target) :: List.replicate n 0 else [-target]
    A := some [List.replicate n 1]
    b := some [if !market_neutral then 1 else 0] }

/-- The standard-form QP assembled by `tangency_portfolio` (lines 217-232):
the return-floor inequality uses the arbitrary normalizing constant 1 and
there is no equality block. -/
def tangency_qp (cov : DFrame) (rets : PSeries) (allow_short : Bool) : QP :=
  let n := cov.index.length
  { P := cov.values
    q := List.replicate n 0
    G := if !allow_short then (rets.values.map Neg.neg) :: negIdentity n
         else [rets.values.map Neg.neg]
    h := if !allow_short then (-1 : ℚ) :: List.replicate n 0 else [-1]
    A := none
    b := none }

/-- `markowitz_portfolio` (lines 45-122) with the solver passed explicitly.
Checks mirror the source order: the `isinstance(target_ret, float)` check of
line 77 (the DataFrame/Series checks of lines 71-75 hold by typing), the
index comparison of line 80, the market-neutral coercion warning of lines
83-85, then the solve and the convergence warning.  Returns the warnings
emitted together with the weight values. -/
def markowitz_portfolio (sol : QP → SolverResult) (cov : DFrame) (rets : PSeries)
    (target_ret : PyVal) (allow_short market_neutral : Bool) :
    Except PfError (List String × List ℚ) :=
  match target_ret with
  | .pfloat t =>
    if cov.index = rets.index then
      let coerceWarns := if market_neutral && !allow_short then [mnWarn] else []
      let r := sol (markowitz_qp cov rets t allow_short market_neutral)
      let convWarns := if r.status = "optimal" then [] else [convergenceWarn]
      Except.ok (coerceWarns ++ convWarns, r.x)
    else Except.error (PfError.invalidInput "Indices do not match")
  | _ => Except.error (PfError.invalidInput "Target return is not a float")

/-- `tangency_portfolio` (lines 183-246) with the solver passed explicitly:
index validation, solve, convergence warning, then the rescale
`weights /= weights.sum()` of line 245. -/
def tangency_portfolio (sol : QP → SolverResult) (cov : DFrame) (rets : PSeries)
    (allow_short : Bool) : Except PfError (List String × List ℚ) :=
  if cov.index = rets.index then
    let r := sol (tangency_qp cov rets allow_short)
    let convWarns := if r.status = "optimal" then [] else [convergenceWarn]
    Except.ok (convWarns, r.x.map (fun v => v / r.x.sum))
  else Except.error (PfError.invalidInput "Indices do not match")

/-- Maximum of the values of a pandas series (`Series.max`).  The claims
apply it to nonempty vectors; the empty case is given the junk value 0
(pandas would yield NaN there). -/
def listMax : List ℚ → ℚ
  | [] => 0
  | x :: xs => xs.foldl max x

/-- Value of the weight series after the two masked assignments of
`max_ret_portfolio` (lines 269-270): entries equal to the current maximum
are set to 1.0, then entries different from the recomputed maximum are set
to 0.0.  Each mask is evaluated against the series as it stands when the
assignment runs, exactly as in the source. -/
def max_ret_masked (v : List ℚ) : List ℚ :=
  let w1 := v.map (fun x => if x = listMax v then 1 else x)
  w1.map (fun x => if x ≠ listMax w1 then 0 else x)

/-- `max_ret_portfolio` (lines 249-273): the two masked assignments followed
by `weights /= weights.sum()`. -/
def max_ret_portfolio (exp_rets : List ℚ) : List ℚ :=
  let w := max_ret_masked exp_rets
  w.map (fun x => x / w.sum)

/-- Line 301 of `truncate_weights`: set every entry whose absolute value is
strictly below `min_weight` to 0.0 (`adj_weights.abs() < min_weight`). -/
def zeroSmall (v : List ℚ) (min_weight : ℚ) : List ℚ :=
  v.map (fun x => if |x| < min_weight then 0 else x)

/-- `truncate_weights` (lines 276-309).  Python's guard
`if not adj_weights.sum():` is true exactly when the sum equals 0.0, and
every sum of rationals is finite, so the error condition is `sum = 0`. -/
def truncate_weights (weights : List ℚ) (min_weight : ℚ) (rescale : Bool) :
    Except PfError (List ℚ) :=
  let adj := zeroSmall weights min_weight
  if rescale then
    if adj.sum = 0 then
      Except.error
        (PfError.degenerateResult "Cannot rescale weight vector as sum is not finite")
    else Except.ok (adj.map (fun x => x / adj.sum))
  else Except.ok adj

/-- Value held by the caller's `exp_rets` after `max_ret_portfolio` returns,
under the pandas semantics contemporary to the source (pre-copy-on-write):
`exp_rets[:]` at line 268 is a view sharing the underlying buffer, the
masked assignments of lines 269-270 write into that buffer in place, and
the final `weights /= weights.sum()` swaps in a fresh buffer for the local
series without touching the shared one. -/
def max_ret_exp_rets_after (v : List ℚ) : List ℚ := max_ret_masked v

/-- Value held by the caller's `weights` after `truncate_weights` returns,
under the same view semantics for `weights[:]` at line 300: the masked
zeroing of line 301 writes through to the caller's buffer. -/
def truncate_weights_input_after (v : List ℚ) (min_weight : ℚ) : List ℚ :=
  zeroSmall v min_weight

/-- Two-asset covariance frame used to instantiate the theorems. -/
def demoCov : DFrame := { index := ["A", "B"], values := [[1, 0], [0, 1]] }

/-- Two-asset expected returns aligned with `demoCov`. -/
def demoRets : PSeries := { index := ["A", "B"], values := [1/10, 1/5] }

/-- Covariance frame over assets A, B, C for the mismatched-index scenario. -/
def covABC : DFrame :=
  { index := ["A", "B", "C"], values := [[1, 0, 0], [0, 1, 0], [0, 0, 1]] }

/-- Expected returns over assets A, B, D: same length as `covABC` but a
different identifier set. -/
def retsABD : PSeries := { index := ["A", "B", "D"], values := [1/10, 1/5, 3/10] }

/-- A solver stub returning a fixed optimal solution. -/
def demoSol : QP → SolverResult := fun _ => { status := "optimal", x := [1, 3] }

/-- The constraint regimes named by the specification. -/
inductive ConstraintMode where
  | longOnly
  | longShort
  | marketNeutral
  deriving DecidableEq

/-- The constraint regime selected by the `allow_short` / `market_neutral`
flags: `market_neutral` selects MarketNeutral (whatever `allow_short` says,
by the coercion), otherwise `allow_short` separates LongShort from
LongOnly. -/
def modeOf (allow_short market_neutral : Bool) : ConstraintMode :=
  if market_neutral then ConstraintMode.marketNeutral
  else if allow_short then ConstraintMode.longShort
  else ConstraintMode.longOnly

/-- The Markowitz QP as the specification words it: P the covariance
matrix, q the zero vector; in LongOnly mode G is the negated return row
stacked on the negated identity with h the negated target stacked on n
zeros (n+1 rows); in LongShort or MarketNeutral mode G is the single
negated return row with h the negated target; the equality system is the
all-ones row with b = 1, except b = 0 when MarketNeutral. -/
def markowitz_qp_spec (cov : DFrame) (rets : PSeries) (target : ℚ)
    (mode : ConstraintMode) : QP :=
  let n := cov.index.length
  { P := cov.values
    q := List.replicate n 0
    G := match mode with
         | ConstraintMode.longOnly => (rets.values.map Neg.neg) :: negIdentity n
         | _ => [rets.values.map Neg.neg]
    h := match mode with
         | ConstraintMode.longOnly => (-target) :: List.replicate n 0
         | _ => [-target]
    A := some [List.replicate n 1]
    b := some [match mode with | ConstraintMode.marketNeutral => (0 : ℚ) | _ => 1] }

/-- Summing after dividing every entry by `s` divides the sum by `s`. -/
theorem list_sum_map_div (l : List ℚ) (s : ℚ) :
    (l.map (fun v => v / s)).sum = l.sum / s := by
  induction l with
  | nil => simp
  | cons a t ih => simp [ih, add_div]

/-- Zeroing the small entries twice is the same as zeroing them once. -/
theorem zeroSmall_idem (v : List ℚ) (m : ℚ) :
    zeroSmall (zeroSmall v m) m = zeroSmall v m := by
  induction v with
  | nil => rfl
  | cons a t ih =>
    by_cases h : |a| < m <;> simp [zeroSmall, h, ite_self] <;>
      simpa [zeroSmall] using ih

/-- C5: the QP assembled by `markowitz_portfolio` coincides componentwise
with the matrices the specification describes, under the mode reading of
the two boolean flags: P is the covariance matrix, q the zero vector,
LongOnly stacks the negated return row on the negated identity (n+1
inequality rows), LongShort and MarketNeutral keep only the negated return
row, A is the all-ones row, and b is 1 except 0 for MarketNeutral. -/
theorem markowitz_qp_matches_spec (cov : DFrame) (rets : PSeries) (target : ℚ)
    (allow_short market_neutral : Bool) :
    markowitz_qp cov rets target allow_short market_neutral
      = markowitz_qp_spec cov rets target (modeOf allow_short market_neutral) := by
  cases allow_short <;> cases market_neutral <;> rfl

/-- C6: when the asset indices of the covariance matrix and the expected
returns differ in content or order, `markowitz_portfolio` and
`tangency_portfolio` both fail with the InvalidInputError of line 81 and
line 215 - for every solver, so no solver call can influence the result. -/
theorem index_mismatch_invalid_input (sol : QP → SolverResult) (cov : DFrame)
    (rets : PSeries) (t : ℚ) (allow_short market_neutral : Bool)
    (hidx : cov.index ≠ rets.index) :
    markowitz_portfolio sol cov rets (PyVal.pfloat t) allow_short market_neutral
        = Except.error (PfError.invalidInput "Indices do not match")
    ∧ tangency_portfolio sol cov rets allow_short
        = Except.error (PfError.invalidInput "Indices do not match") := by
  constructor <;> simp [markowitz_portfolio, tangency_portfolio, hidx]

/-- C6 witness: the specification's mismatched-index scenario, covariance
over assets A, B, C against expected returns over A, B, D. -/
theorem index_mismatch_invalid_input_witness :
    covABC.index ≠ retsABD.index
    ∧ (markowitz_portfolio demoSol covABC retsABD (PyVal.pfloat 0) false false
          = Except.error (PfError.invalidInput "Indices do not match")
        ∧ tangency_portfolio demoSol covABC retsABD false
          = Except.error (PfError.invalidInput "Indices do not match")) :=
  ⟨by decide, index_mismatch_invalid_input demoSol covABC retsABD 0 false false (by decide)⟩

/-- C8: a `target_ret` that is not a Python float makes
`markowitz_portfolio` fail with the InvalidInputError of line 78 - for
every solver and every covariance/returns input, hence before any QP
matrix is built or solve is attempted. -/
theorem nonfloat_target_invalid_input (sol : QP → SolverResult) (cov : DFrame)
    (rets : PSeries) (target_ret : PyVal) (allow_short market_neutral : Bool)
    (hfl : target_ret.isFloat = false) :
    markowitz_portfolio sol cov rets target_ret allow_short market_neutral
      = Except.error (PfError.invalidInput "Target return is not a float") := by
  cases target_ret <;> simp_all [markowitz_portfolio, PyVal.isFloat]

/-- C8 witness: the integer target 1 is rejected. -/
theorem nonfloat_target_invalid_input_witness :
    (PyVal.pint 1).isFloat = false
    ∧ markowitz_portfolio demoSol demoCov demoRets (PyVal.pint 1) false false
        = Except.error (PfError.invalidInput "Target return is not a float") :=
  ⟨rfl, nonfloat_target_invalid_input demoSol demoCov demoRets (PyVal.pint 1) false false rfl⟩

/-- C4: with rescale = true, `truncate_weights` fails with the
DegenerateResultError exactly when the truncated vector sums to zero, and
otherwise returns the truncated vector renormalized by its sum.  In the
rational model every sum is finite, so the condition "zero or not finite"
is the condition sum = 0. -/
theorem truncate_weights_rescale_degenerate_iff (v : List ℚ) (m : ℚ) :
    (truncate_weights v m true
        = Except.error
            (PfError.degenerateResult "Cannot rescale weight vector as sum is not finite")
      ↔ (zeroSmall v m).sum = 0)
    ∧ ((zeroSmall v m).sum ≠ 0 →
        truncate_weights v m true
          = Except.ok ((zeroSmall v m).map (fun x => x / (zeroSmall v m).sum))) := by
  by_cases hs : (zeroSmall v m).sum = 0 <;> simp [truncate_weights, hs]

/-- C4 witness: on the vector [1/2] with min_weight 1 the truncation zeroes
everything, the truncated sum is 0, and the rescaling call errors. -/
theorem truncate_weights_rescale_degenerate_iff_witness :
    (truncate_weights [1/2] 1 true
        = Except.error
            (PfError.degenerateResult "Cannot rescale weight vector as sum is not finite")
      ↔ (zeroSmall [1/2] 1).sum = 0)
    ∧ ((zeroSmall [1/2] 1).sum ≠ 0 →
        truncate_weights [1/2] 1 true
          = Except.ok ((zeroSmall [1/2] 1).map (fun x => x / (zeroSmall [1/2] 1).sum))) :=
  truncate_weights_rescale_degenerate_iff [1/2] 1

/-- C3 counterexample: with rescale = true (the default) truncation is not
idempotent.  On [1/50, 2] with min_weight 1/100 one application keeps both
entries and renormalizes them to [1/101, 100/101]; the entry 1/101 now lies
below the threshold 1/100, so a second application zeroes it and
renormalizes to [0, 1]. -/
theorem truncate_weights_rescale_not_idempotent :
    (truncate_weights [1/50, 2] (1/100) true).bind
        (fun w => truncate_weights w (1/100) true)
      = Except.ok [0, 1]
    ∧ truncate_weights [1/50, 2] (1/100) true = Except.ok [1/101, 100/101]
    ∧ ([0, 1] : List ℚ) ≠ [1/101, 100/101] := by
  have h1 : truncate_weights [1/50, 2] (1/100) true = Except.ok [1/101, 100/101] := by
    have hz : zeroSmall [1/50, 2] (1/100) = [1/50, 2] := by
      norm_num [zeroSmall, abs_of_pos]
    rw [truncate_weights]
    norm_num [hz, List.sum_cons]
  have h2 : truncate_weights [1/101, 100/101] (1/100) true = Except.ok [0, 1] := by
    have hz : zeroSmall [1/101, 100/101] (1/100) = [0, 100/101] := by
      norm_num [zeroSmall, abs_of_pos]
    rw [truncate_weights]
    norm_num [hz, List.sum_cons]
  refine ⟨?_, h1, by norm_num⟩
  rw [h1]
  exact h2

/-- C3 amended: with rescale = false, applying `truncate_weights` twice
with the same min_weight yields the same result as applying it once. -/
theorem truncate_weights_norescale_idempotent (v : List ℚ) (m : ℚ) :
    (truncate_weights v m false).bind (fun w => truncate_weights w m false)
      = truncate_weights v m false := by
  simp [truncate_weights, Except.bind, zeroSmall_idem]

/-- C10: the truncation step of `truncate_weights` zeroes exactly the
entries whose absolute value is strictly below min_weight; in particular an
entry whose absolute value equals min_weight is preserved unchanged. -/
theorem zeroSmall_strict_threshold (v : List ℚ) (m : ℚ) (i : ℕ) :
    (zeroSmall v m).getD i 0 = (if |v.getD i 0| < m then 0 else v.getD i 0)
    ∧ (|v.getD i 0| = m → (zeroSmall v m).getD i 0 = v.getD i 0) := by
  have hmain : ∀ (w : List ℚ) (j : ℕ),
      (zeroSmall w m).getD j 0 = (if |w.getD j 0| < m then 0 else w.getD j 0) := by
    intro w
    induction w with
    | nil => intro j; simp [zeroSmall, ite_self]
    | cons a t ih =>
      intro j
      cases j with
      | zero => simp [zeroSmall]
      | succ k => simpa [zeroSmall] using ih k
  refine ⟨hmain v i, fun h => ?_⟩
  rw [hmain v i, h, if_neg (lt_irrefl m)]

/-- C10 witness: the first entry of [1/100, 5] has absolute value exactly
equal to the threshold 1/100 and is preserved. -/
theorem zeroSmall_strict_threshold_witness :
    (zeroSmall [1/100, 5] (1/100)).getD 0 0
        = (if |([1/100, 5] : List ℚ).getD 0 0| < 1/100 then 0
           else ([1/100, 5] : List ℚ).getD 0 0)
    ∧ (|([1/100, 5] : List ℚ).getD 0 0| = 1/100 →
        (zeroSmall [1/100, 5] (1/100)).getD 0 0 = ([1/100, 5] : List ℚ).getD 0 0) :=
  zeroSmall_strict_threshold [1/100, 5] (1/100) 0

/-- C2: for every solver, covariance matrix and return vector with matching
indices, whenever the raw solver solution has nonzero sum,
`tangency_portfolio` returns exactly the raw solution with every entry
divided by the solution's sum, and that vector sums to 1.  The statement
quantifies over an arbitrary solver, hence over an arbitrary raw solution,
so it holds regardless of the normalizing constant used in the inequality
constraint. -/
theorem tangency_portfolio_unit_sum (sol : QP → SolverResult) (cov : DFrame)
    (rets : PSeries) (allow_short : Bool)
    (hidx : cov.index = rets.index)
    (hsum : (sol (tangency_qp cov rets allow_short)).x.sum ≠ 0) :
    ∃ ws, tangency_portfolio sol cov rets allow_short
        = Except.ok (ws, (sol (tangency_qp cov rets allow_short)).x.map
            (fun v => v / (sol (tangency_qp cov rets allow_short)).x.sum))
      ∧ ((sol (tangency_qp cov rets allow_short)).x.map
            (fun v => v / (sol (tangency_qp cov rets allow_short)).x.sum)).sum = 1 := by
  refine ⟨if (sol (tangency_qp cov rets allow_short)).status = "optimal" then []
          else [convergenceWarn], ?_, ?_⟩
  · simp [tangency_portfolio, hidx]
  · rw [list_sum_map_div, div_self hsum]

/-- C2 witness: a concrete solver returning the raw solution [1, 3] on the
two-asset fixture; the returned weights are [1/4, 3/4]. -/
theorem tangency_portfolio_unit_sum_witness :
    demoCov.index = demoRets.index
    ∧ (demoSol (tangency_qp demoCov demoRets false)).x.sum ≠ 0
    ∧ ∃ ws, tangency_portfolio demoSol demoCov demoRets false
        = Except.ok (ws, (demoSol (tangency_qp demoCov demoRets false)).x.map
            (fun v => v / (demoSol (tangency_qp demoCov demoRets false)).x.sum))
      ∧ ((demoSol (tangency_qp demoCov demoRets false)).x.map
            (fun v => v / (demoSol (tangency_qp demoCov demoRets false)).x.sum)).sum = 1 :=
  ⟨rfl, by norm_num [demoSol, List.sum_cons],
    tangency_portfolio_unit_sum demoSol demoCov demoRets false rfl
      (by norm_num [demoSol, List.sum_cons])⟩

/-- C7: requesting market_neutral = true with allow_short = false on inputs
that pass validation succeeds (no error), emits the shorting warning of
line 84, and otherwise behaves exactly as the allow_short = true call: same
weights and same remaining warnings, for every solver. -/
theorem market_neutral_coerces_allow_short (sol : QP → SolverResult)
    (cov : DFrame) (rets : PSeries) (t : ℚ)
    (hidx : cov.index = rets.index) :
    markowitz_portfolio sol cov rets (PyVal.pfloat t) false true
        = (markowitz_portfolio sol cov rets (PyVal.pfloat t) true true).map
            (fun p => (mnWarn :: p.1, p.2))
    ∧ ∃ ws x, markowitz_portfolio sol cov rets (PyVal.pfloat t) false true
        = Except.ok (ws, x) := by
  constructor
  · simp [markowitz_portfolio, hidx, markowitz_qp, Except.map]
  · exact ⟨mnWarn ::
      (if (sol (markowitz_qp cov rets t false true)).status = "optimal" then []
       else [convergenceWarn]),
      (sol (markowitz_qp cov rets t false true)).x,
      by simp [markowitz_portfolio, hidx]⟩

/-- C7 witness: on the two-asset fixture with target 0 the coerced call
succeeds and matches the allow_short = true call up to the warning. -/
theorem market_neutral_coerces_allow_short_witness :
    demoCov.index = demoRets.index
    ∧ (markowitz_portfolio demoSol demoCov demoRets (PyVal.pfloat 0) false true
          = (markowitz_portfolio demoSol demoCov demoRets (PyVal.pfloat 0) true true).map
              (fun p => (mnWarn :: p.1, p.2))
        ∧ ∃ ws x, markowitz_portfolio demoSol demoCov demoRets (PyVal.pfloat 0) false true
          = Except.ok (ws, x)) :=
  ⟨rfl, market_neutral_coerces_allow_short demoSol demoCov demoRets 0 rfl⟩

/-- C1: divergence of `max_ret_portfolio` from its specification and its
own docstring.  On the return vector [2, 1] the unique maximum sits at
index 0, so the claim demands the weights [1, 0]; the code returns
[1/2, 1/2], because the first masked assignment rewrites the maximal entry
to 1.0, after which the second mask compares against the recomputed maximum
1.0 and zeroes nothing. -/
theorem max_ret_portfolio_unit_collision :
    max_ret_portfolio [2, 1] = [1/2, 1/2]
    ∧ max_ret_portfolio [2, 1] ≠ [1, 0] := by
  have hmask : max_ret_masked [2, 1] = [1, 1] := by
    have h2 : listMax [2, 1] = 2 := by
      norm_num [listMax, List.foldl]
    norm_num [max_ret_masked, h2, listMax, List.foldl]
  constructor
  · rw [max_ret_portfolio, hmask]
    norm_num [List.sum_cons]
  · rw [max_ret_portfolio, hmask]
    norm_num [List.sum_cons]

/-- C9: the caller's input vectors are not left unchanged.  After
`max_ret_portfolio` on [2, 1] the caller's exp_rets buffer holds [1, 1]
(the masked assignments wrote through the view), and after
`truncate_weights` on [1/200, 1] with min_weight 1/100 the caller's weights
buffer holds [0, 1]; both differ from the original inputs. -/
theorem inputs_mutated_through_view :
    max_ret_exp_rets_after [2, 1] = [1, 1]
    ∧ ([1, 1] : List ℚ) ≠ [2, 1]
    ∧ truncate_weights_input_after [1/200, 1] (1/100) = [0, 1]
    ∧ ([0, 1] : List ℚ) ≠ [1/200, 1] := by
  have h2 : listMax [2, 1] = 2 := by
    norm_num [listMax, List.foldl]
  refine ⟨?_, by norm_num, ?_, by norm_num⟩
  · norm_num [max_ret_exp_rets_after, max_ret_masked, h2, listMax, List.foldl]
  · norm_num [truncate_weights_input_after, zeroSmall, abs_of_pos]

end PortfolioOpt
